import Mathlib

/- Shallow embedding of the DLNA casting core of react-native-dlna-player:
   the Android module RNByronDLNAModuleEnhanced.java, the iOS module
   RNByronDLNAEnhanced.mm and the JavaScript layer index-enhanced.js.
   Program strings are modelled as lists of characters (Str).  The
   spec's abstract failure kinds correspond to the modules' literal
   rejection codes: InvalidInput is INVALID_URL, DeviceNotFound is
   DEVICE_NOT_FOUND, CapabilityUnavailable is SERVICE_NOT_AVAILABLE,
   InvalidAction is INVALID_ACTION, DispatchFailure is ACTION_FAILED,
   MaxRetriesExceeded is MAX_RETRIES_EXCEEDED (documented in the README
   error-code table as the terminal code after 3 failed attempts). -/

namespace DLNA

/-- Program strings: lists of characters. -/
abbrev Str := List Char

/- ==================== Metadata encoder ==================== -/

/-- One Java `String.replace` step for a one-character target: every
occurrence of `target` is replaced by `rep`, left to right. -/
def replaceChar (target : Char) (rep : Str) : Str → Str
  | [] => []
  | c :: cs => (if c = target then rep else [c]) ++ replaceChar target rep cs

/-- `escapeXml` (RNByronDLNAModuleEnhanced.java lines 565-572; the iOS
`escapeXml:` at RNByronDLNAEnhanced.mm lines 531-542 is the same chain):
sequentially replaces the five XML-significant characters, ampersand
first.  The Java null guard (`if (text == null) return ""`) is outside
the model: a Str is never null. -/
def escapeXml (text : Str) : Str :=
  replaceChar '\'' "&apos;".data
    (replaceChar '"' "&quot;".data
      (replaceChar '>' "&gt;".data
        (replaceChar '<' "&lt;".data
          (replaceChar '&' "&amp;".data text))))

/-- Substring test, as Java `String.contains` / `NSString containsString`. -/
def containsSub (pat : Str) : Str → Bool
  | [] => pat.isEmpty
  | c :: rest => pat.isPrefixOf (c :: rest) || containsSub pat rest

/-- The protocol-info (content descriptor) chosen inside
`generateDIDLMetadata` from the raw, pre-escaping URL
(RNByronDLNAModuleEnhanced.java lines 544-551; RNByronDLNAEnhanced.mm
lines 507-515). -/
def protocolInfoFor (url : Str) : Str :=
  if (".m3u8".data).isSuffixOf url || containsSub ".m3u8?".data url then
    "http-get:*:application/vnd.apple.mpegurl:*".data
  else if (".mp4".data).isSuffixOf url then
    "http-get:*:video/mp4:*".data
  else
    "http-get:*:video/*:*".data

/-- The DIDL-Lite template up to the title element's content. -/
def didlHead : Str :=
  ("<DIDL-Lite xmlns=\"urn:schemas-upnp-org:metadata-1-0/DIDL-Lite/\" " ++
   "xmlns:dc=\"http://purl.org/dc/elements/1.1/\" " ++
   "xmlns:upnp=\"urn:schemas-upnp-org:metadata-1-0/upnp/\" " ++
   "xmlns:dlna=\"urn:schemas-dlna-org:metadata-1-0/\">" ++
   "<item id=\"1\" parentID=\"0\" restricted=\"1\">" ++
   "<dc:title>").data

/-- The DIDL-Lite template between the title and the protocol info. -/
def didlAfterTitle : Str :=
  ("</dc:title>" ++
   "<upnp:class>object.item.videoItem</upnp:class>" ++
   "<res protocolInfo=\"").data

/-- The DIDL-Lite template between the protocol info and the URL. -/
def didlAfterProtocol : Str := "\">".data

/-- The DIDL-Lite template after the URL. -/
def didlTail : Str := ("</res>" ++ "</item>" ++ "</DIDL-Lite>").data

/-- `generateDIDLMetadata` (RNByronDLNAModuleEnhanced.java lines 539-563;
RNByronDLNAEnhanced.mm lines 502-529): escape URL and title, pick the
protocol info from the raw URL, splice all three into the DIDL-Lite
template. -/
def generateDIDLMetadata (url title : Str) : Str :=
  let escapedUrl := escapeXml url
  let escapedTitle := escapeXml title
  let protocolInfo := protocolInfoFor url
  didlHead ++ escapedTitle ++ didlAfterTitle ++ protocolInfo ++
    didlAfterProtocol ++ escapedUrl ++ didlTail

/-- Per-character escaping: an XML-significant character becomes its
entity, every other character is kept.  Used to state that the
sequential `escapeXml` chain escapes each occurrence exactly once. -/
def escChar (c : Char) : Str :=
  if c = '&' then "&amp;".data
  else if c = '<' then "&lt;".data
  else if c = '>' then "&gt;".data
  else if c = '"' then "&quot;".data
  else if c = '\'' then "&apos;".data
  else [c]

/-- Title defaulting at the cast entry points.  The JavaScript wrapper
(`castToDevice(deviceId, videoUrl, title = 'Video')`, index-enhanced.js
line 82) substitutes the default only for an absent (undefined) title;
the Java side (`title != null ? title : "Video"`, line 277) and the iOS
side (`title ? title : @"Video"`, line 297) likewise substitute only for
null.  An absent title is `none`; an empty-string title is `some []`. -/
def effectiveTitle : Option Str → Str
  | none => "Video".data
  | some t => t

/- ==================== Cast orchestrator ==================== -/

/-- Progress stages of the `dlna-cast-progress` event. -/
inductive Stage where
  | connecting
  | buffering
  | playing
deriving DecidableEq

/-- One emitted `dlna-cast-progress` event (`emitCastProgress`,
RNByronDLNAModuleEnhanced.java lines 574-584).  The wall-clock timestamp
field is outside the model. -/
structure ProgressEvent where
  stage : Stage
  message : Str
  deviceName : Str
deriving DecidableEq

/-- What the external dispatcher does with one action request within the
attempt's 30-second deadline: the success callback runs, the failure
callback runs with the transport's message, or no callback arrives
before the deadline (the timeout handler then reports
"Operation timed out"). -/
inductive ActionOutcome where
  | ok
  | fail (msg : Str)
  | timedOut
deriving DecidableEq

/-- A resolved device as the orchestrator reads it: its friendly name and
whether `findService(new UDAServiceType("AVTransport"))` is non-null. -/
structure DeviceInfo where
  friendlyName : Str
  hasAVTransport : Bool
deriving DecidableEq

/-- Environment of one cast call: whether the UPnP service is bound, and
the registry's and dispatcher's behaviour per attempt number (the device
is re-resolved fresh on every attempt). -/
structure CastEnv where
  serviceRunning : Bool
  device : Nat → Option DeviceInfo
  setSource : Nat → ActionOutcome
  play : Nat → ActionOutcome

/-- How the call's promise ends: `promise.resolve(value)` or
`promise.reject(code, msg)`. -/
inductive CastResult where
  | resolved (value : Bool)
  | rejected (code : Str) (msg : Str)
deriving DecidableEq

/-- Observable trace of one cast call: the progress events emitted, the
number of dispatcher invocations issued, the scheduled inter-attempt
backoff delays (in units of INITIAL_RETRY_DELAY, 1 second), and the
promise's terminal result. -/
structure CastTrace where
  events : List ProgressEvent
  dispatches : Nat
  delays : List Nat
  result : CastResult
deriving DecidableEq

/-- How one attempt body ends: settling the promise (terminal), or
handing an error message to `retryOrFail` (retryable). -/
inductive AttemptOutcome where
  | terminal (r : CastResult)
  | retryable (errMsg : Str)
deriving DecidableEq

/-- Rejection message of `castToDeviceWithRetry` when the device id does
not resolve (RNByronDLNAModuleEnhanced.java lines 250-256). -/
def deviceNotFoundMsg (deviceId : Str) : Str :=
  "Device with ID '".data ++ deviceId ++
    ("' not found. " ++
     "Device may have gone offline or discovery needs to be re-run. " ++
     "Try calling discoverDevices() again.").data

/-- Rejection message when the UPnP service is not bound (Java lines
239-244). -/
def serviceNotStartedCastMsg : Str :=
  "DLNA service not started. Call startService('Your App Name') before casting.".data

/-- Rejection message when the device lacks AVTransport (Java lines
267-274). -/
def serviceNotAvailableMsg (deviceName : Str) : Str :=
  "Device '".data ++ deviceName ++
    ("' does not support AVTransport service. " ++
     "This device cannot play media via DLNA. " ++
     "Only MediaRenderer devices with AVTransport are supported.").data

/-- Error handed to `retryOrFail` by the SetAVTransportURI failure
callback (Java lines 343-344). -/
def setSourceFailMsg (defaultMsg : Str) : Str :=
  "Failed to load media: ".data ++ defaultMsg ++
    ". Check that the URL is accessible from the TV's network.".data

/-- Error handed to `retryOrFail` by the Play failure callback (Java
lines 326-327). -/
def playFailMsg (defaultMsg : Str) : Str :=
  "Play command failed: ".data ++ defaultMsg ++
    ". Device may not support the media format or is busy.".data

/-- Error handed to `retryOrFail` by the timeout handler (Java line
286). -/
def timeoutErrMsg : Str := "Operation timed out".data

/-- Terminal message of `retryOrFail` once the attempt number has
reached MAX_RETRIES (Java line 365). -/
def castFailedMsg (errMsg : Str) : Str :=
  errMsg ++ " after 3 attempts".data

/-- Rejection message of the `attemptNumber > MAX_RETRIES` guard at the
top of `castToDeviceWithRetry` (Java lines 232-234). -/
def maxRetriesExceededMsg : Str :=
  ("Failed to cast after 3 attempts. " ++
   "Device may be offline or incompatible. Try restarting the device and discovering again.").data

/-- The retry budget (Java line 62, iOS line 13). -/
def MAX_RETRIES : Nat := 3

/-- One body execution of `castToDeviceWithRetry` below the retry-budget
guard (Java lines 239-356): service check, device resolution,
`connecting` progress, AVTransport check, metadata generation,
set-source invocation, `buffering` progress, play invocation, `playing`
progress.  Returns the emitted events, the number of dispatcher
invocations issued, and the attempt's outcome.  `dispatches` counts
issued requests: set-source counts once it is executed, play once the
set-source success callback runs it. -/
def castAttempt (env : CastEnv) (deviceId : Str) (n : Nat) :
    List ProgressEvent × Nat × AttemptOutcome :=
  if env.serviceRunning = false then
    ([], 0, .terminal (.rejected "SERVICE_NOT_STARTED".data serviceNotStartedCastMsg))
  else
    match env.device n with
    | none =>
        ([], 0, .terminal (.rejected "DEVICE_NOT_FOUND".data (deviceNotFoundMsg deviceId)))
    | some d =>
        let connectingEvent : ProgressEvent :=
          ⟨.connecting, "Connecting to device...".data, d.friendlyName⟩
        if d.hasAVTransport = false then
          ([connectingEvent], 0,
            .terminal (.rejected "SERVICE_NOT_AVAILABLE".data (serviceNotAvailableMsg d.friendlyName)))
        else
          match env.setSource n with
          | .timedOut => ([connectingEvent], 1, .retryable timeoutErrMsg)
          | .fail m => ([connectingEvent], 1, .retryable (setSourceFailMsg m))
          | .ok =>
              let bufferingEvent : ProgressEvent :=
                ⟨.buffering, "Loading media on TV...".data, d.friendlyName⟩
              match env.play n with
              | .timedOut =>
                  ([connectingEvent, bufferingEvent], 2, .retryable timeoutErrMsg)
              | .fail m =>
                  ([connectingEvent, bufferingEvent], 2, .retryable (playFailMsg m))
              | .ok =>
                  let playingEvent : ProgressEvent :=
                    ⟨.playing, "Media is now playing".data, d.friendlyName⟩
                  ([connectingEvent, bufferingEvent, playingEvent], 2,
                    .terminal (.resolved true))

/-- `castToDeviceWithRetry` together with `retryOrFail` (Java lines
230-375): the guard `attemptNumber > MAX_RETRIES` rejects with
MAX_RETRIES_EXCEEDED; a terminal attempt outcome settles the promise; a
retryable one goes to `retryOrFail`, which rejects with CAST_FAILED when
`attemptNumber >= MAX_RETRIES` and otherwise schedules the next attempt
after INITIAL_RETRY_DELAY * 2 ^ (attemptNumber - 1). -/
def castToDeviceWithRetry (env : CastEnv) (deviceId : Str) (attemptNumber : Nat) :
    CastTrace :=
  if _h : MAX_RETRIES < attemptNumber then
    { events := [], dispatches := 0, delays := [],
      result := .rejected "MAX_RETRIES_EXCEEDED".data maxRetriesExceededMsg }
  else
    match castAttempt env deviceId attemptNumber with
    | (evs, disp, .terminal r) =>
        { events := evs, dispatches := disp, delays := [], result := r }
    | (evs, disp, .retryable errMsg) =>
        if _h2 : MAX_RETRIES ≤ attemptNumber then
          { events := evs, dispatches := disp, delays := [],
            result := .rejected "CAST_FAILED".data (castFailedMsg errMsg) }
        else
          let rest := castToDeviceWithRetry env deviceId (attemptNumber + 1)
          { events := evs ++ rest.events,
            dispatches := disp + rest.dispatches,
            delays := 2 ^ (attemptNumber - 1) :: rest.delays,
            result := rest.result }
termination_by MAX_RETRIES + 1 - attemptNumber
decreasing_by simp [MAX_RETRIES] at *; omega

/-- `validateVideoUrl` (Java lines 586-607): returns the rejection
message when the URL is empty or starts with neither accepted prefix,
`none` when the URL passes.  The HTTPS warning is a log line only. -/
def validateVideoUrl (url : Str) : Option Str :=
  if url.isEmpty then
    some "Video URL cannot be empty. Please provide a valid HTTP or HTTPS URL.".data
  else if !(("http://".data).isPrefixOf url) && !(("https://".data).isPrefixOf url) then
    some ("Invalid video URL: '".data ++ url ++
      "'. URL must start with http:// or https://.".data)
  else
    none

/-- `castToDevice` (Java lines 216-225): validate the URL, rejecting
with INVALID_URL on violation before any dispatcher work, else start
the retry loop at attempt 1.  The title only feeds the metadata
document, which leaves no mark on the trace, so it is not a parameter
here (see `effectiveTitle` for its defaulting). -/
def castToDevice (env : CastEnv) (deviceId url : Str) : CastTrace :=
  match validateVideoUrl url with
  | some m =>
      { events := [], dispatches := 0, delays := [],
        result := .rejected "INVALID_URL".data m }
  | none => castToDeviceWithRetry env deviceId 1

/- ==================== Playback controller ==================== -/

/-- Reply of the external transport to one control dispatch: the success
callback (Android) / NPT_SUCCEEDED (iOS), or the failure callback with
its message / NPT_FAILED. -/
inductive DispatchReply where
  | succeeded
  | failed (msg : Str)

/-- Environment of one Android `controlPlayback` call: service state,
the registry's answer for the device id, and the transport's reply per
dispatched action name. -/
structure ControlEnv where
  serviceRunning : Bool
  device : Option DeviceInfo
  reply : Str → DispatchReply

/-- Environment of one iOS `controlPlayback` call: controller state, the
`discoveredDevices` cache's answer for the device id, and the NPT result
per dispatched action name.  iOS performs no AVTransport check. -/
structure ControlEnvIOS where
  controllerInit : Bool
  device : Option DeviceInfo
  reply : Str → DispatchReply

/-- ASCII lowercasing of a program string, as Java's
`action.toLowerCase()` behaves on the ASCII action names at issue. -/
def toLowerStr (s : Str) : Str := s.map Char.toLower

/-- Rejection message of `controlPlayback` when the device id does not
resolve (Java lines 393-396). -/
def controlDeviceNotFoundMsg (deviceId : Str) : Str :=
  "Device with ID '".data ++ deviceId ++
    "' not found. Device may have gone offline. Try discovering devices again.".data

/-- Rejection message when the UPnP service is not bound (Java lines
383-385). -/
def serviceNotStartedControlMsg : Str :=
  "DLNA service not started. Call startService('Your App Name') before controlling playback.".data

/-- Rejection message when the device lacks AVTransport (Java lines
404-407). -/
def controlServiceNotAvailableMsg (deviceName : Str) : Str :=
  "Device '".data ++ deviceName ++
    "' does not support AVTransport service. Cannot control playback on this device.".data

/-- Rejection message of the default switch branch (Java lines 458-460;
iOS lines 447-448 format the same text). -/
def invalidActionMsg (action : Str) : Str :=
  "Invalid action: '".data ++ action ++
    "'. Valid actions are: 'play', 'pause', 'stop'.".data

/-- Rejection message of the iOS NPT_FAILED branch (iOS lines 455-456). -/
def iosActionFailedMsg (action deviceName : Str) : Str :=
  "Failed to execute action '".data ++ action ++ "' on device '".data ++
    deviceName ++ "'. Device may be offline or unreachable.".data

/-- Android `controlPlayback` (RNByronDLNAModuleEnhanced.java lines
381-470): service check, device lookup, AVTransport check, then a
switch on `action.toLowerCase()` issuing exactly one dispatch for play,
pause or stop (resolving true on the success callback, rejecting
ACTION_FAILED with the transport's message on failure) and rejecting
INVALID_ACTION with no dispatch otherwise.  Returns the number of
dispatcher invocations issued and the promise's result. -/
def controlPlayback (env : ControlEnv) (deviceId action : Str) :
    Nat × CastResult :=
  if env.serviceRunning = false then
    (0, .rejected "SERVICE_NOT_STARTED".data serviceNotStartedControlMsg)
  else
    match env.device with
    | none => (0, .rejected "DEVICE_NOT_FOUND".data (controlDeviceNotFoundMsg deviceId))
    | some d =>
        if d.hasAVTransport = false then
          (0, .rejected "SERVICE_NOT_AVAILABLE".data (controlServiceNotAvailableMsg d.friendlyName))
        else
          let lowered := toLowerStr action
          if lowered = "play".data then
            match env.reply "play".data with
            | .succeeded => (1, .resolved true)
            | .failed m => (1, .rejected "ACTION_FAILED".data m)
          else if lowered = "pause".data then
            match env.reply "pause".data with
            | .succeeded => (1, .resolved true)
            | .failed m => (1, .rejected "ACTION_FAILED".data m)
          else if lowered = "stop".data then
            match env.reply "stop".data with
            | .succeeded => (1, .resolved true)
            | .failed m => (1, .rejected "ACTION_FAILED".data m)
          else
            (0, .rejected "INVALID_ACTION".data (invalidActionMsg action))

/-- iOS `controlPlayback` (RNByronDLNAEnhanced.mm lines 416-466):
controller check, device lookup, then case-sensitive
`isEqualToString:` comparisons against the three literal actions; any
other action string rejects INVALID_ACTION with no dispatch. -/
def controlPlaybackIOS (env : ControlEnvIOS) (deviceId action : Str) :
    Nat × CastResult :=
  if env.controllerInit = false then
    (0, .rejected "CONTROLLER_NOT_INITIALIZED".data
      "Media controller not initialized. Call startService('Your App Name') first.".data)
  else
    match env.device with
    | none => (0, .rejected "DEVICE_NOT_FOUND".data (controlDeviceNotFoundMsg deviceId))
    | some d =>
        if action = "play".data ∨ action = "pause".data ∨ action = "stop".data then
          match env.reply action with
          | .succeeded => (1, .resolved true)
          | .failed _ => (1, .rejected "ACTION_FAILED".data (iosActionFailedMsg action d.friendlyName))
        else
          (0, .rejected "INVALID_ACTION".data (invalidActionMsg action))

/- ==================== Per-attempt completion flag ==================== -/

/-- The Android timeout path of one cast attempt (Java lines 283-288):
`timeoutRunnable` reads `operationCompleted.get()` and, when the flag is
still false, fires its effect (`retryOrFail`); it never writes the
flag.  Input: the shared flag; output: the flag after the step and
whether the path's effect fired. -/
def timeoutRunnableStep (operationCompleted : Bool) : Bool × Bool :=
  if operationCompleted = false then (operationCompleted, true)
  else (operationCompleted, false)

/-- The dispatcher-callback path of the same attempt (Java lines 307,
322, 339): each SetAVTransportURI/Play callback fires its effect
(resolve, reject or `retryOrFail`) only under
`operationCompleted.compareAndSet(false, true)`, which also sets the
flag. -/
def dispatcherCallbackStep (operationCompleted : Bool) : Bool × Bool :=
  if operationCompleted = false then (true, true)
  else (operationCompleted, false)

/-- Run the attempt's completion paths in their arrival order over the
shared flag (initially false), counting how many fire their effect. -/
def firedCount : List (Bool → Bool × Bool) → Bool → Nat
  | [], _ => 0
  | p :: ps, flag =>
      let r := p flag
      (if r.2 then 1 else 0) + firedCount ps r.1

/- ==================== Concrete environments ==================== -/

/-- A registry in which the device identifier never resolves. -/
def envNeverResolves : CastEnv :=
  { serviceRunning := true
    device := fun _ => none
    setSource := fun _ => .ok
    play := fun _ => .ok }

/-- A resolvable device whose set-source dispatch fails on every
attempt. -/
def envAlwaysSetSourceFails : CastEnv :=
  { serviceRunning := true
    device := fun _ => some ⟨"Samsung TV".data, true⟩
    setSource := fun _ => .fail "boom".data
    play := fun _ => .ok }

/-- A resolvable device whose set-source dispatch fails on attempts 1
and 2 and succeeds on attempt 3, with play succeeding. -/
def envThirdAttemptSucceeds : CastEnv :=
  { serviceRunning := true
    device := fun _ => some ⟨"Samsung TV".data, true⟩
    setSource := fun n => if n < 3 then .fail "boom".data else .ok
    play := fun _ => .ok }

/-- A control environment with a resolvable AVTransport-capable device
whose every dispatch succeeds. -/
def ctrlEnvOk : ControlEnv :=
  { serviceRunning := true
    device := some ⟨"Samsung TV".data, true⟩
    reply := fun _ => .succeeded }

/-- A control environment in which the device identifier does not
resolve. -/
def ctrlEnvNoDevice : ControlEnv :=
  { serviceRunning := true
    device := none
    reply := fun _ => .succeeded }

/-- An iOS control environment with a cached device whose every dispatch
succeeds. -/
def ctrlEnvIOSOk : ControlEnvIOS :=
  { controllerInit := true
    device := some ⟨"Samsung TV".data, true⟩
    reply := fun _ => .succeeded }

/- ==================== Helper lemmas ==================== -/

/-- A single-character replace distributes over concatenation. -/
theorem replaceChar_append (t : Char) (r : Str) (a b : Str) :
    replaceChar t r (a ++ b) = replaceChar t r a ++ replaceChar t r b := by
  induction a with
  | nil => rfl
  | cons c cs ih => simp [replaceChar, ih]

/-- The escape chain distributes over concatenation. -/
theorem escapeXml_append (a b : Str) :
    escapeXml (a ++ b) = escapeXml a ++ escapeXml b := by
  simp [escapeXml, replaceChar_append]

/-- On a single character the sequential escape chain produces exactly
the character's entity: the replacement strings introduced by the
ampersand step contain none of the four later targets, and the later
steps introduce ampersands only inside finished entities. -/
theorem escapeXml_singleton (c : Char) : escapeXml [c] = escChar c := by
  by_cases h1 : c = '&'
  · subst h1; decide
  · by_cases h2 : c = '<'
    · subst h2; decide
    · by_cases h3 : c = '>'
      · subst h3; decide
      · by_cases h4 : c = '"'
        · subst h4; decide
        · by_cases h5 : c = '\''
          · subst h5; decide
          · simp [escapeXml, replaceChar, escChar, h1, h2, h3, h4, h5]

/-- The sequential replace chain of `escapeXml` equals the one-pass
per-character escape. -/
theorem escapeXml_eq_flatMap (s : Str) : escapeXml s = s.flatMap escChar := by
  induction s with
  | nil => rfl
  | cons c cs ih =>
      have h2 : escapeXml (c :: cs) = escapeXml [c] ++ escapeXml cs :=
        escapeXml_append [c] cs
      rw [h2, escapeXml_singleton, ih, List.flatMap_cons]

/- ==================== Claim theorems ==================== -/

/-- C7: for every url and title, the metadata document embeds only the
escaped forms of title and url — the sequential replace chain with the
ampersand replaced first acts as the per-character map sending each of
the five XML-significant characters to its entity, so every occurrence
of those characters in the inputs appears in the output exactly as its
entity and already-produced entities are never corrupted again. -/
theorem cast_metadata_embeds_escaped_forms (url title : Str) :
    generateDIDLMetadata url title =
      didlHead ++ title.flatMap escChar ++ didlAfterTitle ++ protocolInfoFor url ++
        didlAfterProtocol ++ url.flatMap escChar ++ didlTail := by
  simp [generateDIDLMetadata, escapeXml_eq_flatMap]

/-- C8: the encoder selects the content descriptor deterministically
from the raw (pre-escaping) url in priority order: a `.m3u8` suffix or
`.m3u8?` substring selects the adaptive-streaming descriptor; otherwise
a `.mp4` suffix selects the MP4 descriptor; otherwise the generic video
descriptor is used. -/
theorem cast_descriptor_priority_rule (url title : Str) :
    ((".m3u8".data).isSuffixOf url = true ∨ containsSub ".m3u8?".data url = true →
      generateDIDLMetadata url title =
        didlHead ++ escapeXml title ++ didlAfterTitle ++
          "http-get:*:application/vnd.apple.mpegurl:*".data ++
          didlAfterProtocol ++ escapeXml url ++ didlTail) ∧
    ((".m3u8".data).isSuffixOf url = false → containsSub ".m3u8?".data url = false →
      (".mp4".data).isSuffixOf url = true →
      generateDIDLMetadata url title =
        didlHead ++ escapeXml title ++ didlAfterTitle ++
          "http-get:*:video/mp4:*".data ++
          didlAfterProtocol ++ escapeXml url ++ didlTail) ∧
    ((".m3u8".data).isSuffixOf url = false → containsSub ".m3u8?".data url = false →
      (".mp4".data).isSuffixOf url = false →
      generateDIDLMetadata url title =
        didlHead ++ escapeXml title ++ didlAfterTitle ++
          "http-get:*:video/*:*".data ++
          didlAfterProtocol ++ escapeXml url ++ didlTail) := by
  refine ⟨?_, ?_, ?_⟩
  · rintro (h | h) <;> simp [generateDIDLMetadata, protocolInfoFor, h]
  · intro h1 h2 h3
    simp [generateDIDLMetadata, protocolInfoFor, h1, h2, h3]
  · intro h1 h2 h3
    simp [generateDIDLMetadata, protocolInfoFor, h1, h2, h3]

/-- C8 witness: an HLS url takes the adaptive-streaming descriptor. -/
theorem cast_descriptor_priority_rule_witness :
    generateDIDLMetadata "http://h/s.m3u8".data "T".data =
      didlHead ++ escapeXml "T".data ++ didlAfterTitle ++
        "http-get:*:application/vnd.apple.mpegurl:*".data ++
        didlAfterProtocol ++ escapeXml "http://h/s.m3u8".data ++ didlTail :=
  (cast_descriptor_priority_rule "http://h/s.m3u8".data "T".data).1 (Or.inl (by decide))

set_option maxRecDepth 16384 in
/-- C9 counterexample: a cast whose title argument is the empty string
does not get the default title — the empty string is neither undefined
nor null, so the encoder receives it unchanged and the produced document
differs from the one carrying the title "Video". -/
theorem cast_default_title_counterexample :
    effectiveTitle (some []) = [] ∧
    generateDIDLMetadata "http://example.com/v.mp4".data (effectiveTitle (some [])) ≠
      generateDIDLMetadata "http://example.com/v.mp4".data "Video".data := by
  exact ⟨rfl, by decide⟩

/-- C9 corrected: the default title "Video" is substituted only when the
title argument is absent (undefined in JavaScript, null in Java and
Objective-C), not when it is the empty string; encoding is total, and
with an absent title the document's title element is exactly "Video". -/
theorem cast_default_title_on_absent (url t : Str) :
    effectiveTitle none = "Video".data ∧
    effectiveTitle (some t) = t ∧
    generateDIDLMetadata url (effectiveTitle none) =
      didlHead ++ "Video".data ++ didlAfterTitle ++ protocolInfoFor url ++
        didlAfterProtocol ++ escapeXml url ++ didlTail := by
  refine ⟨rfl, rfl, ?_⟩
  have h : escapeXml "Video".data = "Video".data := by decide
  simp [generateDIDLMetadata, effectiveTitle, h]

/-- C1: evaluation of one attempt's two completion paths at both arrival
orders over the shared `operationCompleted` flag.  When the dispatcher
callback arrives first, exactly one path fires; but when the 30-second
deadline fires first, the late dispatcher callback still passes its
compareAndSet gate because the timeout path never wrote the flag, so
both paths fire — the claimed exactly-once completion per attempt does
not hold on the code. -/
theorem cast_completion_flag_race :
    firedCount [dispatcherCallbackStep, timeoutRunnableStep] false = 1 ∧
    firedCount [timeoutRunnableStep, dispatcherCallbackStep] false = 2 := by
  decide

/-- C2 counterexample: a cast whose identifier resolves to no device
rejects at once with DEVICE_NOT_FOUND — no retry is scheduled, no
dispatcher call is issued, and the terminal kind is not
MAX_RETRIES_EXCEEDED as the claim requires. -/
theorem cast_unresolved_device_counterexample :
    castToDevice envNeverResolves "uuid:absent".data "http://example.com/v.mp4".data =
      { events := [], dispatches := 0, delays := [],
        result := .rejected "DEVICE_NOT_FOUND".data (deviceNotFoundMsg "uuid:absent".data) } ∧
    ("DEVICE_NOT_FOUND".data : Str) ≠ "MAX_RETRIES_EXCEEDED".data := by
  constructor
  · simp [castToDevice, castToDeviceWithRetry, castAttempt, envNeverResolves,
      validateVideoUrl, MAX_RETRIES]
  · decide

/-- C2 corrected: when the device identifier does not resolve on the
first attempt, the call rejects immediately with kind DEVICE_NOT_FOUND,
performing zero dispatcher invocations, scheduling no retry delay and
emitting no progress event — a resolution miss is a terminal failure,
not a retryable attempt failure. -/
theorem cast_unresolved_device_rejects_immediately
    (env : CastEnv) (deviceId url : Str)
    (hv : validateVideoUrl url = none)
    (hs : env.serviceRunning = true)
    (hd : env.device 1 = none) :
    castToDevice env deviceId url =
      { events := [], dispatches := 0, delays := [],
        result := .rejected "DEVICE_NOT_FOUND".data (deviceNotFoundMsg deviceId) } := by
  simp [castToDevice, hv, castToDeviceWithRetry, castAttempt, hs, hd, MAX_RETRIES]

/-- C2 witness: the corrected behaviour at a concrete call. -/
theorem cast_unresolved_device_rejects_immediately_witness :
    castToDevice envNeverResolves "uuid:x".data "http://e/v.mp4".data =
      { events := [], dispatches := 0, delays := [],
        result := .rejected "DEVICE_NOT_FOUND".data (deviceNotFoundMsg "uuid:x".data) } :=
  cast_unresolved_device_rejects_immediately envNeverResolves "uuid:x".data
    "http://e/v.mp4".data (by decide) rfl rfl

/-- C3: a cast whose set-source dispatch fails on each of the 3 attempts
terminates through `retryOrFail` with the rejection code CAST_FAILED,
whose message wraps the last underlying error and the attempt count,
after backoff delays of 1 and 2 time units; the code path that rejects
with the documented MAX_RETRIES_EXCEEDED code (the
`attemptNumber > MAX_RETRIES` guard) is not the one taken. -/
theorem cast_exhausted_retries_terminal (env : CastEnv) (deviceId url : Str)
    (d1 d2 d3 : DeviceInfo) (m1 m2 m3 : Str)
    (hv : validateVideoUrl url = none)
    (hs : env.serviceRunning = true)
    (h1 : env.device 1 = some d1) (ha1 : d1.hasAVTransport = true)
    (h2 : env.device 2 = some d2) (ha2 : d2.hasAVTransport = true)
    (h3 : env.device 3 = some d3) (ha3 : d3.hasAVTransport = true)
    (hf1 : env.setSource 1 = .fail m1)
    (hf2 : env.setSource 2 = .fail m2)
    (hf3 : env.setSource 3 = .fail m3) :
    (castToDevice env deviceId url).result =
      .rejected "CAST_FAILED".data (castFailedMsg (setSourceFailMsg m3)) ∧
    (castToDevice env deviceId url).delays = [1, 2] ∧
    ("CAST_FAILED".data : Str) ≠ "MAX_RETRIES_EXCEEDED".data := by
  refine ⟨?_, ?_, by decide⟩ <;>
    simp [castToDevice, hv, castToDeviceWithRetry, castAttempt, hs,
      h1, ha1, h2, ha2, h3, ha3, hf1, hf2, hf3, MAX_RETRIES]

/-- C3 witness: the terminal CAST_FAILED rejection at a concrete
always-failing environment. -/
theorem cast_exhausted_retries_terminal_witness :
    (castToDevice envAlwaysSetSourceFails "uuid:tv".data "http://e/v.mp4".data).result =
      .rejected "CAST_FAILED".data (castFailedMsg (setSourceFailMsg "boom".data)) ∧
    (castToDevice envAlwaysSetSourceFails "uuid:tv".data "http://e/v.mp4".data).delays = [1, 2] ∧
    ("CAST_FAILED".data : Str) ≠ "MAX_RETRIES_EXCEEDED".data :=
  cast_exhausted_retries_terminal envAlwaysSetSourceFails "uuid:tv".data "http://e/v.mp4".data
    ⟨"Samsung TV".data, true⟩ ⟨"Samsung TV".data, true⟩ ⟨"Samsung TV".data, true⟩
    "boom".data "boom".data "boom".data
    (by decide) rfl rfl rfl rfl rfl rfl rfl rfl rfl rfl

/-- C4: a cast whose url is empty or begins with neither accepted scheme
prefix rejects immediately with kind INVALID_URL, issuing zero
dispatcher invocations, scheduling no retry and emitting no event. -/
theorem cast_invalid_url_rejects_immediately (env : CastEnv) (deviceId url : Str)
    (h : url = [] ∨
      ((("http://".data).isPrefixOf url = false) ∧
        (("https://".data).isPrefixOf url = false))) :
    (castToDevice env deviceId url).dispatches = 0 ∧
    (castToDevice env deviceId url).delays = [] ∧
    (castToDevice env deviceId url).events = [] ∧
    ∃ m, (castToDevice env deviceId url).result = .rejected "INVALID_URL".data m := by
  have hv : (validateVideoUrl url).isSome := by
    rcases h with h | ⟨hp1, hp2⟩
    · subst h; rfl
    · by_cases he : url.isEmpty
      · simp [validateVideoUrl, he]
      · simp [validateVideoUrl, he, hp1, hp2]
  obtain ⟨m, hm⟩ := Option.isSome_iff_exists.mp hv
  refine ⟨?_, ?_, ?_, ⟨m, ?_⟩⟩ <;> simp [castToDevice, hm]

/-- C4 witness: an unsupported scheme at a concrete call. -/
theorem cast_invalid_url_rejects_immediately_witness :
    (castToDevice envNeverResolves "uuid:x".data "ftp://x".data).dispatches = 0 ∧
    (castToDevice envNeverResolves "uuid:x".data "ftp://x".data).delays = [] ∧
    (castToDevice envNeverResolves "uuid:x".data "ftp://x".data).events = [] ∧
    ∃ m, (castToDevice envNeverResolves "uuid:x".data "ftp://x".data).result =
      .rejected "INVALID_URL".data m :=
  cast_invalid_url_rejects_immediately envNeverResolves "uuid:x".data "ftp://x".data
    (Or.inr ⟨by decide, by decide⟩)

/-- C5 counterexample: `controlPlayback` resolves the device before
inspecting the action, so with an unresolved identifier and the action
"rewind" the call rejects with DEVICE_NOT_FOUND, not with the
INVALID_ACTION kind the claim requires regardless of device
existence. -/
theorem control_invalid_action_counterexample :
    controlPlayback ctrlEnvNoDevice "uuid:absent".data "rewind".data =
      (0, .rejected "DEVICE_NOT_FOUND".data (controlDeviceNotFoundMsg "uuid:absent".data)) ∧
    ("DEVICE_NOT_FOUND".data : Str) ≠ "INVALID_ACTION".data := by
  constructor
  · simp [controlPlayback, ctrlEnvNoDevice]
  · decide

/-- C5 corrected: an action outside play, pause, stop (after
lowercasing) is rejected with INVALID_ACTION and zero dispatcher
invocations only when the device identifier resolves to an
AVTransport-capable device; when the identifier does not resolve, the
call rejects earlier with DEVICE_NOT_FOUND — still with zero dispatcher
invocations. -/
theorem control_invalid_action_corrected (env : ControlEnv) (deviceId action : Str)
    (hs : env.serviceRunning = true)
    (hp : toLowerStr action ≠ "play".data)
    (hpa : toLowerStr action ≠ "pause".data)
    (hst : toLowerStr action ≠ "stop".data) :
    (∀ d : DeviceInfo, env.device = some d → d.hasAVTransport = true →
        controlPlayback env deviceId action =
          (0, .rejected "INVALID_ACTION".data (invalidActionMsg action))) ∧
    (env.device = none →
        controlPlayback env deviceId action =
          (0, .rejected "DEVICE_NOT_FOUND".data (controlDeviceNotFoundMsg deviceId))) := by
  constructor
  · intro d hd ha
    simp [controlPlayback, hs, hd, ha, hp, hpa, hst]
  · intro hd
    simp [controlPlayback, hs, hd]

/-- C5 witness: "rewind" against a resolved device is rejected with
INVALID_ACTION and no dispatch. -/
theorem control_invalid_action_corrected_witness :
    controlPlayback ctrlEnvOk "uuid:tv".data "rewind".data =
      (0, .rejected "INVALID_ACTION".data (invalidActionMsg "rewind".data)) :=
  (control_invalid_action_corrected ctrlEnvOk "uuid:tv".data "rewind".data rfl
      (by decide) (by decide) (by decide)).1 ⟨"Samsung TV".data, true⟩ rfl rfl

/-- C6: with set-source failing on attempts 1 and 2 and succeeding on
attempt 3 (play succeeding), the cast emits the prefix-structured trace
connecting, connecting, connecting, buffering, playing — three
connecting events, one buffering, one playing — and resolves with
success.  Each attempt emits connecting first, buffering only after
set-source succeeds and playing only after play succeeds; a failed
attempt emits nothing further and the next attempt restarts from
connecting. -/
theorem cast_progress_trace_prefix_structure (env : CastEnv) (deviceId url : Str)
    (d1 d2 d3 : DeviceInfo) (m1 m2 : Str)
    (hv : validateVideoUrl url = none)
    (hs : env.serviceRunning = true)
    (h1 : env.device 1 = some d1) (ha1 : d1.hasAVTransport = true)
    (h2 : env.device 2 = some d2) (ha2 : d2.hasAVTransport = true)
    (h3 : env.device 3 = some d3) (ha3 : d3.hasAVTransport = true)
    (hf1 : env.setSource 1 = .fail m1)
    (hf2 : env.setSource 2 = .fail m2)
    (hok : env.setSource 3 = .ok) (hp : env.play 3 = .ok) :
    (castToDevice env deviceId url).events.map ProgressEvent.stage =
      [.connecting, .connecting, .connecting, .buffering, .playing] ∧
    (castToDevice env deviceId url).result = .resolved true := by
  constructor <;>
    simp [castToDevice, hv, castToDeviceWithRetry, castAttempt, hs,
      h1, ha1, h2, ha2, h3, ha3, hf1, hf2, hok, hp, MAX_RETRIES]

/-- C6 witness: the trace at a concrete third-attempt-succeeds
environment. -/
theorem cast_progress_trace_prefix_structure_witness :
    (castToDevice envThirdAttemptSucceeds "uuid:tv".data "http://e/v.mp4".data).events.map
        ProgressEvent.stage =
      [.connecting, .connecting, .connecting, .buffering, .playing] ∧
    (castToDevice envThirdAttemptSucceeds "uuid:tv".data "http://e/v.mp4".data).result =
      .resolved true :=
  cast_progress_trace_prefix_structure envThirdAttemptSucceeds "uuid:tv".data
    "http://e/v.mp4".data
    ⟨"Samsung TV".data, true⟩ ⟨"Samsung TV".data, true⟩ ⟨"Samsung TV".data, true⟩
    "boom".data "boom".data
    (by decide) rfl rfl rfl rfl rfl rfl rfl (by decide) (by decide) (by decide) rfl

/-- C10: the Android `controlPlayback` matches the action after
lowercasing — any action whose lowercase form is play, pause or stop
issues exactly one dispatcher invocation, and only actions whose
lowercase form is outside that set reject with INVALID_ACTION — while
the iOS module compares case-sensitively, rejecting every action string
that is not literally play, pause or stop. -/
theorem control_action_case_sensitivity (envA : ControlEnv) (envI : ControlEnvIOS)
    (deviceId action : Str) (d e : DeviceInfo)
    (hs : envA.serviceRunning = true) (hd : envA.device = some d)
    (ha : d.hasAVTransport = true)
    (hc : envI.controllerInit = true) (hdi : envI.device = some e) :
    ((toLowerStr action = "play".data ∨ toLowerStr action = "pause".data ∨
        toLowerStr action = "stop".data) →
      (controlPlayback envA deviceId action).1 = 1) ∧
    ((toLowerStr action ≠ "play".data ∧ toLowerStr action ≠ "pause".data ∧
        toLowerStr action ≠ "stop".data) →
      controlPlayback envA deviceId action =
        (0, .rejected "INVALID_ACTION".data (invalidActionMsg action))) ∧
    ((action ≠ "play".data ∧ action ≠ "pause".data ∧ action ≠ "stop".data) →
      controlPlaybackIOS envI deviceId action =
        (0, .rejected "INVALID_ACTION".data (invalidActionMsg action))) := by
  refine ⟨?_, ?_, ?_⟩
  · rintro (h | h | h) <;>
      cases hr1 : envA.reply "play".data <;>
      cases hr2 : envA.reply "pause".data <;>
      cases hr3 : envA.reply "stop".data <;>
      simp [controlPlayback, hs, hd, ha, h, hr1, hr2, hr3]
  · rintro ⟨hn1, hn2, hn3⟩
    simp [controlPlayback, hs, hd, ha, hn1, hn2, hn3]
  · rintro ⟨hn1, hn2, hn3⟩
    simp [controlPlaybackIOS, hc, hdi, hn1, hn2, hn3]

/-- C10 witness: "PLAY" is dispatched by the Android module and rejected
with INVALID_ACTION by the iOS module. -/
theorem control_action_case_sensitivity_witness :
    (controlPlayback ctrlEnvOk "uuid:tv".data "PLAY".data).1 = 1 ∧
    controlPlaybackIOS ctrlEnvIOSOk "uuid:tv".data "PLAY".data =
      (0, .rejected "INVALID_ACTION".data (invalidActionMsg "PLAY".data)) := by
  have h := control_action_case_sensitivity ctrlEnvOk ctrlEnvIOSOk "uuid:tv".data
    "PLAY".data ⟨"Samsung TV".data, true⟩ ⟨"Samsung TV".data, true⟩ rfl rfl rfl rfl rfl
  exact ⟨h.1 (Or.inl (by decide)), h.2.2 ⟨by decide, by decide, by decide⟩⟩

end DLNA
